import Mathlib

/-!
Verification of the jsonschema-typed schema-to-type compiler.

This file shallowly embeds the schema-handling core of the repository
(jsonschema_typed/plugin.py and jsonschema_typed/optional_typed_dict.py)
and proves or refutes the frozen specification claims about it.

Modelling conventions:
  - JSON documents are an inductive tree; Python dicts become association
    lists.  Objects parsed by json.load have unique keys, so key lookup is
    by first match.
  - mypy type objects (Instance, UnionType, LiteralType, AnyType, NoneType,
    TypedDictType, TupleType) become the MypyType inductive.  Several of the
    Python call sites build lists that may contain Python None (a handler
    returning None), so list-shaped fields hold Option MypyType.
  - Python exceptions become the PyErr error type of an Except computation.
  - The RefResolver collaborator (from the jsonschema library) is modelled
    by the scope stack it maintains plus an abstract resolution table; the
    compiler code only calls push_scope, pop_scope and resolve on it.
  - get_type recursion is bounded by explicit fuel; every recursive entry
    into get_type consumes one unit.
-/

/-- JSON values as parsed by json.load.  Numbers are modelled as integers:
every claim under study uses integer numerals only. -/
inductive JSON where
  | null
  | bool (b : Bool)
  | num (n : Int)
  | str (s : String)
  | arr (elems : List JSON)
  | obj (fields : List (String × JSON))

/-- Python exceptions that the compiler can raise. -/
inductive PyErr where
  | notImplemented (msg : String)
  | attrError
  | assertError
  | valueError
  | typeError
  | stopIteration
  | refResolutionError
  | outOfFuel
  | unmodeled
deriving DecidableEq

/-- mypy type expressions, as built by the plugin. -/
inductive MypyType where
  | inst (name : String) (args : List (Option MypyType))
  | union (members : List (Option MypyType))
  | literal (value : JSON) (base : MypyType)
  | anyT
  | noneT
  | typedDict (items : List (String × MypyType)) (required : List String)
  | namedTD (name : String) (items : List (String × MypyType)) (required : List String)
  | tupleT (elems : List (Option MypyType))

/-- The three rule-set classes APIv4, APIv6, APIv7.  APIv7 adds nothing over
APIv6, and APIv6 overrides only the integer handler of APIv4. -/
inductive ApiVersion where
  | v4
  | v6
  | v7
deriving DecidableEq

/-- Mutable state threaded through a compile call: the RefResolver scope
stack and the warnings emitted so far. -/
structure CState where
  stack : List String
  warnings : List String
deriving DecidableEq

/-- Per-compile environment: the selected rule-set, the abstract resolution
table of the RefResolver collaborator (ref string to (scope, resolved
fragment)), and the sanitized outer record name computed by TypeMaker. -/
structure Env where
  api : ApiVersion
  refTable : String → Option (String × JSON)
  outerName : String

def pushScope (st : CState) (s : String) : CState :=
  { st with stack := s :: st.stack }

def popScope (st : CState) : CState :=
  { st with stack := st.stack.tail }

def addWarn (st : CState) (w : String) : CState :=
  { st with warnings := st.warnings ++ [w] }

/-- First-match association lookup (Python dict lookup; parsed JSON objects
have unique keys). -/
def lookupKey (m : List (String × JSON)) (k : String) : Option JSON :=
  match m with
  | [] => none
  | (k', v) :: rest => if k' = k then some v else lookupKey rest k

/-- jsonschema.validators id_of: the empty string for boolean schemas,
otherwise schema.get of the dollar-id key defaulting to the empty string.
A JSON document carries string (or no) identifiers; other value shapes for
the identifier are not modelled. -/
def idOf : JSON → String
  | .obj m =>
    match lookupKey m "$id" with
    | some (.str s) => s
    | _ => ""
  | _ => ""

/-- type(v).__name__ for a decoded JSON value v. -/
def pyTypeName : JSON → String
  | .null => "NoneType"
  | .bool _ => "bool"
  | .num _ => "int"
  | .str _ => "str"
  | .arr _ => "list"
  | .obj _ => "dict"

/-- APIv4.const: LiteralType of the value over the builtin type named
type(const).__name__. -/
def litOf (v : JSON) : MypyType :=
  .literal v (.inst (pyTypeName v) [])

def wDefault : String := "default keyword not supported"
def wAllOf : String := "allOf interpreted as Union"
def wRootArray : String := "root array type falls back to object"
def wSelfRef : String := "forward references may not be supported"

/-- Union of int and float, as APIv4.number and APIv6.integer build it. -/
def numberT : MypyType :=
  .union [some (.inst "int" []), some (.inst "float" [])]

/-- APIv4.enum: a Union of Literals, one per iterated value.  Iterating a
Python dict yields its keys; iterating a string yields its characters;
iterating null, a bool or a number raises TypeError. -/
def enumH (st : CState) (v : JSON) : Except PyErr (CState × Option MypyType) :=
  match v with
  | .arr vs => .ok (st, some (.union (vs.map (fun x => some (litOf x)))))
  | .obj o => .ok (st, some (.union (o.map (fun p => some (litOf (.str p.1))))))
  | .str s =>
    .ok (st, some (.union (s.data.map (fun c => some (litOf (.str (String.mk [c])))))))
  | _ => .error .typeError

/-- Values a Python for-loop can iterate as sub-schemas: a list iterates its
elements, a dict its keys, a string its characters; anything else raises
TypeError. -/
def iterAsSchemas : JSON → Option (List JSON)
  | .arr l => some l
  | .obj o => some (o.map (fun p => JSON.str p.1))
  | .str s => some (s.data.map (fun c => JSON.str (String.mk [c])))
  | _ => none

/-- APIv4.boolean: a bool instance, except that a const nested under a
properties key compiles to a Literal of that const; a nested default key
only produces a warning. -/
def booleanH (st : CState) (m : List (String × JSON)) :
    Except PyErr (CState × Option MypyType) :=
  match lookupKey m "properties" with
  | none => .ok (st, some (.inst "bool" []))
  | some (.obj pm) =>
    let st1 := if (lookupKey pm "default").isSome then addWarn st wDefault else st
    match lookupKey pm "const" with
    | some c => .ok (st1, some (litOf c))
    | none => .ok (st1, some (.inst "bool" []))
  | some _ => .error .attrError

/-- set(schema.get("required", [])) restricted to its string members; the
Python set may also hold non-string hashables, but those can never equal a
string property name, so only the strings are kept. -/
def requiredOf (m : List (String × JSON)) : List String :=
  match lookupKey m "required" with
  | some (.arr l) => l.filterMap (fun v => match v with | .str s => some s | _ => none)
  | some (.obj o) => o.map Prod.fst
  | some (.str s) => s.data.map (fun c => String.mk [c])
  | _ => []

/-- Raises for required values on which set() raises TypeError: null, bools
and numbers are not iterable, and lists or dicts inside a required array are
unhashable. -/
def requiredCheck (m : List (String × JSON)) : Except PyErr Unit :=
  match lookupKey m "required" with
  | none => .ok ()
  | some (.arr l) =>
    if l.any (fun v => match v with | .arr _ => true | .obj _ => true | _ => false)
      then .error .typeError else .ok ()
  | some (.obj _) => .ok ()
  | some (.str _) => .ok ()
  | some _ => .error .typeError

/-- Compile each schema of a list in order (the comprehensions in the array,
allOf and anyOf handlers), threading state. -/
def mapSubsF (g : CState → JSON → Bool → Except PyErr (CState × Option MypyType))
    (st : CState) : List JSON → Except PyErr (CState × List (Option MypyType))
  | [] => .ok (st, [])
  | s :: rest =>
    match g st s false with
    | .error e => .error e
    | .ok (st1, t) =>
      match mapSubsF g st1 rest with
      | .error e => .error e
      | .ok (st2, l) => .ok (st2, t :: l)

/-- The reserved pseudo-property names that APIv4.object skips. -/
def isReserved (k : String) : Bool := k == "default" || k == "const"

/-- The properties comprehension of APIv4.object: compile each property
sub-schema in encounter order, skipping the reserved pseudo-property names
default and const before any compilation happens. -/
def objPropsF (g : CState → JSON → Bool → Except PyErr (CState × Option MypyType))
    (st : CState) :
    List (String × JSON) → Except PyErr (CState × List (String × Option MypyType))
  | [] => .ok (st, [])
  | (k, sub) :: rest =>
    if isReserved k then objPropsF g st rest
    else
      match g st sub false with
      | .error e => .error e
      | .ok (st1, t) =>
        match objPropsF g st1 rest with
        | .error e => .error e
        | .ok (st2, l) => .ok (st2, (k, t) :: l)

/-- APIv4.object.  No properties key (or a null one) gives the plain dict
builtin.  Otherwise the properties are compiled, pairs whose compile result
is None are filtered out, unpacking an empty zip raises ValueError, the
required set is built, and a TypedDict (named at the outer position) is
returned. -/
def objectH (g : CState → JSON → Bool → Except PyErr (CState × Option MypyType))
    (env : Env) (st : CState) (m : List (String × JSON)) (outer : Bool) :
    Except PyErr (CState × Option MypyType) :=
  match lookupKey m "properties" with
  | none => .ok (st, some (.inst "dict" []))
  | some .null => .ok (st, some (.inst "dict" []))
  | some (.obj P) =>
    match objPropsF g st P with
    | .error e => .error e
    | .ok (st1, l) =>
      let items := l.filterMap (fun p => p.2.map (fun t => (p.1, t)))
      if items.isEmpty then .error .valueError
      else
        match requiredCheck m with
        | .error e => .error e
        | .ok _ =>
          if outer then .ok (st1, some (.namedTD env.outerName items (requiredOf m)))
          else .ok (st1, some (.typedDict items (requiredOf m)))
  | some _ => .error .attrError

/-- A minItems or maxItems value that hashing rejects: a JSON array or
object (Python list or dict) raises TypeError as soon as the set literal
of the tuple-validation guard is built, before any comparison. -/
def isUnhashable : Option JSON → Bool
  | some (.arr _) => true
  | some (.obj _) => true
  | _ => false

/-- The set literal of the tuple-validation guard hashes both looked-up
values first: an unhashable minItems or maxItems raises TypeError. -/
def unhashableMinMax (m : List (String × JSON)) : Bool :=
  isUnhashable (lookupKey m "minItems") || isUnhashable (lookupKey m "maxItems")

/-- One (hashable) minItems or maxItems entry stays outside the set
difference when it is absent, null, or Python-equal to the tuple length
(Python bools equal 0 or 1).  Unhashable values never reach this test:
unhashableMinMax screens them into the TypeError path beforehand. -/
def entryOK (o : Option JSON) (n : Nat) : Bool :=
  match o with
  | none => true
  | some .null => true
  | some (.num k) => k = (n : Int)
  | some (.bool b) => (if b then (1 : Int) else 0) = (n : Int)
  | some _ => false

/-- The tuple-validation guard of APIv4.array: the set difference of the
minItems and maxItems values with the set holding None and the item count
must be empty. -/
def minMaxOK (m : List (String × JSON)) (n : Nat) : Bool :=
  entryOK (lookupKey m "minItems") n && entryOK (lookupKey m "maxItems") n

/-- APIv4.array.  items true gives a list of Any; items false raises; an
items list is tuple validation: building the guard set raises TypeError
on an unhashable minItems or maxItems, then the minMaxOK gate decides
between the Tuple and NotImplementedError; a single items schema gives a
list of its compile; an absent or null items gives a bare list. -/
def arrayH (g : CState → JSON → Bool → Except PyErr (CState × Option MypyType))
    (st : CState) (m : List (String × JSON)) :
    Except PyErr (CState × Option MypyType) :=
  match lookupKey m "items" with
  | some (.bool true) => .ok (st, some (.inst "list" [some .anyT]))
  | some (.bool false) => .error (.notImplemented "items false is not supported")
  | some (.arr l) =>
    if unhashableMinMax m then .error .typeError
    else if minMaxOK m l.length then
      match mapSubsF g st l with
      | .error e => .error e
      | .ok (st1, es) => .ok (st1, some (.tupleT es))
    else .error (.notImplemented "items list must have minItems equal maxItems")
  | some .null => .ok (st, some (.inst "list" []))
  | none => .ok (st, some (.inst "list" []))
  | some other =>
    match g st other false with
    | .error e => .error e
    | .ok (st1, t) => .ok (st1, some (.inst "list" [t]))

/-- Shared body of APIv4.allOf and APIv4.anyOf: compile every branch and
keep the non-None results in a Union.  allOf additionally warns first. -/
def combineH (g : CState → JSON → Bool → Except PyErr (CState × Option MypyType))
    (st : CState) (v : JSON) : Except PyErr (CState × Option MypyType) :=
  match iterAsSchemas v with
  | none => .error .typeError
  | some l =>
    match mapSubsF g st l with
    | .error e => .error e
    | .ok (st1, ts) => .ok (st1, some (.union (ts.filter (fun o => o.isSome))))

/-- APIv4.ref.  A self reference warns and substitutes object of the empty
schema; any other string ref resolves through the collaborator, pushes the
resolved scope, compiles the fragment, and pops on all exit paths; a
non-string ref value makes the resolver raise. -/
def refH (g : CState → JSON → Bool → Except PyErr (CState × Option MypyType))
    (env : Env) (st : CState) (v : JSON) : Except PyErr (CState × Option MypyType) :=
  match v with
  | .str r =>
    if r = "#" then objectH g env (addWarn st wSelfRef) [] false
    else
      match env.refTable r with
      | none => .error .refResolutionError
      | some (scope, resolved) =>
        match g (pushScope st scope) resolved false with
        | .ok (st1, t) => .ok (popScope st1, t)
        | .error e => .error e
  | _ => .error .typeError

/-- schema_type.startswith of a single underscore. -/
def startsWithUnderscore (t : String) : Bool :=
  match t.data with
  | '_' :: _ => true
  | _ => false

/-- API.get_type_handler followed by the handler call, for a string type
tag.  Names starting with an underscore raise AttributeError before the
getattr; names of the schema-type handler methods dispatch to them; the
other attributes that happen to exist on the API object are not schema
handlers and calling them raises (get_type would recurse forever and is
left unmodelled); unknown names raise NotImplementedError.  The warn-and-Any
fallback after the handler call in API.get_type is dead code, because
get_type_handler never returns None. -/
def dispatchType (g : CState → JSON → Bool → Except PyErr (CState × Option MypyType))
    (env : Env) (st : CState) (m : List (String × JSON)) (t : String) (outer : Bool) :
    Except PyErr (CState × Option MypyType) :=
  if startsWithUnderscore t then .error .attrError
  else if t = "boolean" then booleanH st m
  else if t = "object" then objectH g env st m outer
  else if t = "array" then arrayH g st m
  else if t = "string" then .ok (st, some (.inst "str" []))
  else if t = "number" then .ok (st, some numberT)
  else if t = "integer" then
    match env.api with
    | .v4 => .ok (st, some (.inst "int" []))
    | _ => .ok (st, some numberT)
  else if t = "null" then .ok (st, some .noneT)
  else if t = "any" then .ok (st, some .anyT)
  else if t = "default" then .ok (addWarn st wDefault, none)
  else if t = "const" then .ok (st, some (litOf (.obj m)))
  else if t = "enum" then enumH st (.obj m)
  else if t = "ref" then .error .typeError
  else if t = "allOf" then combineH g (addWarn st wAllOf) (.obj m)
  else if t = "anyOf" then combineH g st (.obj m)
  else if t = "get_type" then .error .unmodeled
  else if t = "get_type_handler" ∨ t = "NO_VALUE" ∨ t = "resolver" ∨ t = "outer_name"
    then .error .typeError
  else .error (.notImplemented t)

/-- API._get_type: an enum key anywhere wins over the primitive type
handler; otherwise dispatch on the type tag, which must be a string for
get_type_handler not to raise. -/
def getTypeAux (g : CState → JSON → Bool → Except PyErr (CState × Option MypyType))
    (env : Env) (st : CState) (m : List (String × JSON)) (tj : JSON) (outer : Bool) :
    Except PyErr (CState × Option MypyType) :=
  match lookupKey m "enum" with
  | some e => enumH st e
  | none =>
    match tj with
    | .str t => dispatchType g env st m t outer
    | _ => .error .attrError

/-- The per-element comprehension of the union-of-types branch of
API.get_type. -/
def typeListWalk (g : CState → JSON → Bool → Except PyErr (CState × Option MypyType))
    (env : Env) (st : CState) (m : List (String × JSON)) :
    List JSON → Bool → Except PyErr (CState × List (Option MypyType))
  | [], _ => .ok (st, [])
  | e :: rest, outer =>
    match getTypeAux g env st m e outer with
    | .error err => .error err
    | .ok (st1, t) =>
      match typeListWalk g env st1 m rest outer with
      | .error err => .error err
      | .ok (st2, l) => .ok (st2, t :: l)

/-- The structural-keyword priority chain of API.get_type, taken when
schema.get of the type key returns Python None (the key is absent, or its
value is JSON null): dollar-ref, allOf, anyOf, oneOf, enum, default, in
that fixed order, each returning without popping the entry scope; with no
keyword present control falls past the pop to the assert on the type tag,
which fails since None is no string. -/
def noTypeChain (g : CState → JSON → Bool → Except PyErr (CState × Option MypyType))
    (env : Env) (st1 : CState) (m : List (String × JSON)) :
    Except PyErr (CState × Option MypyType) :=
  match lookupKey m "$ref" with
  | some r => refH g env st1 r
  | none =>
    match lookupKey m "allOf" with
    | some v => combineH g (addWarn st1 wAllOf) v
    | none =>
      match lookupKey m "anyOf" with
      | some v => combineH g st1 v
      | none =>
        match lookupKey m "oneOf" with
        | some v => combineH g st1 v
        | none =>
          match lookupKey m "enum" with
          | some v => enumH st1 v
          | none =>
            match lookupKey m "default" with
            | some _ => .ok (addWarn st1 wDefault, none)
            | none => .error .assertError

/-- One unfolding of API.get_type, with g standing for the recursive calls.
A scope is pushed on entry when the node carries one; the pop at the bottom
of the keyword analysis is reached only when the type tag ends up a string
(directly, or through the outer object fallback for an array tag) or when
no structural keyword matched at all; every other branch returns without
popping.  schema.get conflates a JSON null type value with an absent key,
so both go through the keyword chain; any other non-string, non-array type
tag reaches the assert and fails. -/
def getTypeF (g : CState → JSON → Bool → Except PyErr (CState × Option MypyType))
    (env : Env) (st : CState) (schema : JSON) (outer : Bool) :
    Except PyErr (CState × Option MypyType) :=
  match schema with
  | .obj m =>
    let scope := idOf (.obj m)
    let st1 := if scope ≠ "" then pushScope st scope else st
    match lookupKey m "type" with
    | some (.arr ts) =>
      if outer then
        if ts.any (fun e => match e with | .str s => s = "object" | _ => false) then
          let st2 := addWarn st1 wRootArray
          let st3 := if scope ≠ "" then popScope st2 else st2
          getTypeAux g env st3 m (.str "object") outer
        else .error (.notImplemented "root type other than object")
      else
        match typeListWalk g env st1 m ts outer with
        | .error e => .error e
        | .ok (st2, rs) => .ok (st2, some (.union rs))
    | some (.str t) =>
      let st2 := if scope ≠ "" then popScope st1 else st1
      getTypeAux g env st2 m (.str t) outer
    | some .null => noTypeChain g env st1 m
    | some _ => .error .assertError
    | none => noTypeChain g env st1 m
  | _ => .error .attrError

/-- API.get_type with explicit recursion fuel. -/
def getType : Nat → Env → CState → JSON → Bool → Except PyErr (CState × Option MypyType)
  | 0, _, _, _, _ => .error .outOfFuel
  | Nat.succ fuel, env, st, schema, outer =>
    getTypeF (fun st' s' o' => getType fuel env st' s' o') env st schema outer

/-- The digits following a draft- marker. -/
def digitRun (cs : List Char) : List Char := cs.takeWhile Char.isDigit

/-- Leftmost match of the draft regex (the literal draft- followed by one or
more digits, greedily). -/
def findDraftAux : List Char → Option String
  | [] => none
  | c :: rest =>
    if (c :: rest).take 6 = "draft-".data ∧
        (((c :: rest).drop 6).headD ' ').isDigit then
      some (String.mk ("draft-".data ++ digitRun ((c :: rest).drop 6)))
    else findDraftAux rest

def findDraftToken (s : String) : Option String := findDraftAux s.data

/-- JSONSchemaPlugin.get_type_analyze_hook draft dispatch: take the schema
value of the document (defaulting to the literal string default when the
key is absent), demand the first draft token of it (next on an
iterator, raising StopIteration when there is none), and look the token up
in the version table with APIv7 as the fallback. -/
def selectApiVersion (schema : JSON) : Except PyErr ApiVersion :=
  match schema with
  | .obj m =>
    let dispatchStr := fun (s : String) =>
      match findDraftToken s with
      | none => Except.error PyErr.stopIteration
      | some tok =>
        Except.ok (if tok = "draft-04" then ApiVersion.v4
          else if tok = "draft-06" then ApiVersion.v6 else ApiVersion.v7)
    match lookupKey m "$schema" with
    | none => dispatchStr "default"
    | some (.str s) => dispatchStr s
    | some _ => .error .typeError
  | _ => .error .attrError

/-- Python str.title: the first letter of every run of letters is
uppercased and the following letters are lowercased. -/
def pyTitleAux : Bool → List Char → List Char
  | _, [] => []
  | prevAlpha, c :: rest =>
    if c.isAlpha then
      (if prevAlpha then c.toLower else c.toUpper) :: pyTitleAux true rest
    else c :: pyTitleAux false rest

/-- TypeMaker sanitize: replace hyphens by spaces, title-case, drop
spaces. -/
def sanitizeName (s : String) : String :=
  String.mk ((pyTitleAux false (s.data.map (fun c => if c = '-' then ' ' else c))).filter
    (fun c => c ≠ ' '))

/-- TypeMaker outer name: the sanitized title, defaulting to the literal
JSONSchema. -/
def outerNameOf (schema : JSON) : String :=
  match schema with
  | .obj m =>
    match lookupKey m "title" with
    | some (.str t) => sanitizeName t
    | _ => sanitizeName "JSONSchema"
  | _ => sanitizeName "JSONSchema"

/-- The analyze-hook pipeline for a loaded schema document: draft dispatch,
TypeMaker construction, then the outer get_type call on a fresh resolver
state. -/
def compileSchema (fuel : Nat) (rt : String → Option (String × JSON)) (schema : JSON) :
    Except PyErr (CState × Option MypyType) :=
  match selectApiVersion schema with
  | .error e => .error e
  | .ok api => getType fuel ⟨api, rt, outerNameOf schema⟩ ⟨[], []⟩ schema true

/-!  Model of OptionalTypedDictPlugin (optional_typed_dict.py).  The
callback receives an analyzed mypy type object; Python objects live on a
heap and the callback assigns through references, so the heap is explicit:
a list of objects indexed by position. -/

/-- The analyzed type object handed to the OptionalTypedDict callback: a
TypedDictType (whose required_keys slot can be assigned), a type alias
carrying a target reference, or any other type (assigning required_keys on
it raises AttributeError, as mypy types declare slots). -/
inductive AnalyzedObj where
  | tdObj (items : List (String × MypyType)) (required : List String)
  | aliasObj (target : Nat)
  | otherObj

/-- OptionalTypedDictPlugin callback body: try to empty required_keys on
the analyzed type, falling back to the alias target; on AttributeError log
and return the argument unchanged.  Returns the updated heap and the
returned reference (always the input reference). -/
def optionalizeCallback (h : List AnalyzedObj) (r : Nat) : List AnalyzedObj × Nat :=
  match h.get? r with
  | some (.tdObj items _) => (h.set r (.tdObj items []), r)
  | some (.aliasObj t) =>
    match h.get? t with
    | some (.tdObj items _) => (h.set t (.tdObj items []), r)
    | _ => (h, r)
  | _ => (h, r)

/-- Record recogniser on compiled types: a TypedDict, named or not. -/
def isRecord : MypyType → Bool
  | .typedDict _ _ => true
  | .namedTD _ _ _ => true
  | _ => false

/-! Demonstration environment and state used by concrete instances. -/

def demoEnv : Env := ⟨.v7, fun _ => none, "Jsonschema"⟩

def demoSt : CState := ⟨[], []⟩

theorem getType_succ (fuel : Nat) (env : Env) (st : CState) (s : JSON) (o : Bool) :
    getType (Nat.succ fuel) env st s o
      = getTypeF (fun a b c => getType fuel env a b c) env st s o := rfl

theorem pop_push (st : CState) (s : String) : popScope (pushScope st s) = st := rfl

/-- When the type tag of a node is a string, the scope pushed on entry to
get_type is popped again before the keyword dispatch: the state reaching
the dispatch equals the entry state. -/
theorem getTypeF_string_type (g : CState → JSON → Bool → Except PyErr (CState × Option MypyType))
    (env : Env) (st : CState) (m : List (String × JSON)) (t : String) (outer : Bool)
    (hty : lookupKey m "type" = some (.str t)) :
    getTypeF g env st (.obj m) outer = getTypeAux g env st m (.str t) outer := by
  unfold getTypeF
  dsimp only
  rw [hty]
  by_cases hid : idOf (.obj m) = ""
  · simp [hid]
  · simp [hid, pop_push]

/-- C1 (corrected): scope pushes and pops are balanced only on the
fall-through path of get_type.  When the type tag is a string, or at the
outer position when it is an array containing object, the scope pushed on
entry is popped again before keyword dispatch, so the dispatch runs on the
entry state.  The early-return branches do not pop (see the
counterexample). -/
theorem C1_scope_balance_string_path :
    (∀ (fuel : Nat) (env : Env) (st : CState) (m : List (String × JSON)) (t : String)
        (outer : Bool), lookupKey m "type" = some (.str t) →
      getType (Nat.succ fuel) env st (.obj m) outer
        = getTypeAux (fun a b c => getType fuel env a b c) env st m (.str t) outer) ∧
    (∀ (fuel : Nat) (env : Env) (st : CState) (m : List (String × JSON)) (ts : List JSON),
        lookupKey m "type" = some (.arr ts) →
        (ts.any (fun e => match e with | .str s => s = "object" | _ => false)) = true →
      getType (Nat.succ fuel) env st (.obj m) true
        = getTypeAux (fun a b c => getType fuel env a b c) env (addWarn st wRootArray) m
            (.str "object") true) := by
  constructor
  · intro fuel env st m t outer hty
    rw [getType_succ, getTypeF_string_type _ _ _ _ _ _ hty]
  · intro fuel env st m ts hty hobj
    rw [getType_succ]
    unfold getTypeF
    dsimp only
    rw [hty]
    by_cases hid : idOf (.obj m) = ""
    · simp [hid, hobj, addWarn]
    · simp [hid, hobj, pop_push, pushScope, popScope, addWarn]

theorem C1_scope_balance_witness :
    getType 1 demoEnv demoSt (.obj [("$id", .str "http://x"), ("type", .str "string")]) false
      = .ok (demoSt, some (.inst "str" [])) := by
  rw [C1_scope_balance_string_path.1 0 demoEnv demoSt
      [("$id", .str "http://x"), ("type", .str "string")] "string" false rfl]
  rfl

theorem C1_scope_balance_counterexample :
    getType 2 demoEnv demoSt (.obj [("$id", .str "http://x"), ("enum", .arr [.num 1])]) false
      = .ok (⟨["http://x"], []⟩, some (.union [some (litOf (.num 1))])) ∧
    (⟨["http://x"], []⟩ : CState).stack ≠ demoSt.stack :=
  ⟨rfl, by simp [demoSt]⟩

/-- C2 (code bug): draft dispatch selects APIv4, APIv6 and APIv7 for
schema strings holding a draft-04, draft-06 or draft-07 token, and APIv7
for any other draft token; but for an absent schema keyword or a schema
string with no draft token it raises StopIteration out of next instead of
defaulting to draft-07 as the claim (and the lookup fallback in the code)
intends. -/
theorem C2_draft_dispatch_behaviour :
    selectApiVersion (.obj [("type", .str "object")]) = .error .stopIteration ∧
    selectApiVersion (.obj [("$schema", .str "http://example.com/my-meta-schema")])
      = .error .stopIteration ∧
    selectApiVersion (.obj [("$schema", .str "http://json-schema.org/draft-04/schema#")])
      = .ok .v4 ∧
    selectApiVersion (.obj [("$schema", .str "http://json-schema.org/draft-06/schema#")])
      = .ok .v6 ∧
    selectApiVersion (.obj [("$schema", .str "http://json-schema.org/draft-07/schema#")])
      = .ok .v7 ∧
    selectApiVersion (.obj [("$schema", .str "http://json-schema.org/draft-05/schema#")])
      = .ok .v7 :=
  ⟨rfl, rfl, rfl, rfl, rfl, rfl⟩

/-- Attribute names that exist on the APIv4 object. -/
def knownApiAttrs : List String :=
  ["boolean", "object", "array", "string", "number", "integer", "null", "any",
   "default", "const", "enum", "ref", "allOf", "anyOf",
   "get_type", "get_type_handler", "NO_VALUE", "resolver", "outer_name"]

/-- C3 (corrected): a type string that names no attribute of the API
object (and does not start with an underscore) makes compilation abort
with NotImplementedError naming the type; the warn-and-Any fallback in the
source is dead code and is never reached. -/
theorem C3_unknown_type_fatal (fuel : Nat) (env : Env) (st : CState)
    (m : List (String × JSON)) (t : String) (outer : Bool)
    (hty : lookupKey m "type" = some (.str t))
    (hen : lookupKey m "enum" = none)
    (hund : startsWithUnderscore t = false)
    (hknown : t ∉ knownApiAttrs) :
    getType (Nat.succ fuel) env st (.obj m) outer = .error (.notImplemented t) := by
  rw [getType_succ, getTypeF_string_type _ _ _ _ _ _ hty]
  simp only [knownApiAttrs, List.mem_cons, List.not_mem_nil, or_false, not_or] at hknown
  obtain ⟨n1, n2, n3, n4, n5, n6, n7, n8, n9, n10, n11, n12, n13, n14, n15, n16, n17, n18, n19⟩ :=
    hknown
  unfold getTypeAux
  rw [hen]
  unfold dispatchType
  simp [hund, n1, n2, n3, n4, n5, n6, n7, n8, n9, n10, n11, n12, n13, n14, n15, n16, n17, n18, n19]

theorem C3_unknown_type_witness :
    getType 1 demoEnv demoSt (.obj [("type", .str "frobnicate")]) false
      = .error (.notImplemented "frobnicate") :=
  C3_unknown_type_fatal 0 demoEnv demoSt [("type", .str "frobnicate")] "frobnicate" false
    rfl rfl rfl (by decide)

theorem C3_unknown_type_counterexample :
    getType 2 demoEnv demoSt (.obj [("type", .str "quux")]) false
      = .error (.notImplemented "quux") ∧
    (getType 2 demoEnv demoSt (.obj [("type", .str "quux")]) false).toOption = none :=
  ⟨rfl, rfl⟩

theorem objPropsF_keys (g : CState → JSON → Bool → Except PyErr (CState × Option MypyType)) :
    ∀ (P : List (String × JSON)) (st st' : CState) (l : List (String × Option MypyType)),
    objPropsF g st P = .ok (st', l) →
    l.map Prod.fst = (P.map Prod.fst).filter (fun k => !isReserved k) := by
  intro P
  induction P with
  | nil =>
    intro st st' l h
    unfold objPropsF at h
    simp at h
    simp [h.2.symm]
  | cons p rest ih =>
    intro st st' l h
    obtain ⟨k, sub⟩ := p
    unfold objPropsF at h
    by_cases hres : isReserved k
    · rw [if_pos hres] at h
      simp [hres, ih st st' l h]
    · rw [if_neg hres] at h
      cases hg : g st sub false with
      | error e => rw [hg] at h; simp at h
      | ok p1 =>
        obtain ⟨st1, t⟩ := p1
        rw [hg] at h
        dsimp only at h
        cases hrest : objPropsF g st1 rest with
        | error e => rw [hrest] at h; simp at h
        | ok p2 =>
          obtain ⟨st2, l2⟩ := p2
          rw [hrest] at h
          simp only [Except.ok.injEq, Prod.mk.injEq] at h
          rw [← h.2]
          simp [hres, ih st1 st2 l2 hrest]

theorem collapse_keys_sublist (l : List (String × Option MypyType)) :
    ((l.filterMap (fun p => p.2.map (fun t => (p.1, t)))).map Prod.fst).Sublist
      (l.map Prod.fst) := by
  induction l with
  | nil => simp
  | cons p rest ih =>
    obtain ⟨k, t?⟩ := p
    cases t? with
    | none => simpa [List.filterMap_cons] using List.Sublist.cons k ih
    | some t => simpa [List.filterMap_cons] using List.Sublist.cons₂ k ih

theorem dispatch_object_eq (g : CState → JSON → Bool → Except PyErr (CState × Option MypyType))
    (env : Env) (st : CState) (m : List (String × JSON)) (outer : Bool) :
    dispatchType g env st m "object" outer = objectH g env st m outer := rfl

/-- C4 (corrected): for a type object schema with a properties map, the
required-key set of the compiled Record is exactly the set of strings in
the required array, so a contained field is required precisely when listed
there; the contained field names are a subsequence of the property keys
with the reserved pseudo-properties default and const removed (properties
compiling to nothing are dropped as well). -/
theorem C4_object_required_amended (fuel : Nat) (env : Env) (st st2 : CState)
    (m : List (String × JSON)) (P : List (String × JSON)) (ty : MypyType)
    (hty : lookupKey m "type" = some (.str "object"))
    (hen : lookupKey m "enum" = none)
    (hpr : lookupKey m "properties" = some (.obj P))
    (hok : getType (Nat.succ fuel) env st (.obj m) false = .ok (st2, some ty)) :
    ∃ items, ty = .typedDict items (requiredOf m) ∧
      (items.map Prod.fst).Sublist ((P.map Prod.fst).filter (fun k => !isReserved k)) := by
  rw [getType_succ, getTypeF_string_type _ _ _ _ _ _ hty] at hok
  unfold getTypeAux at hok
  rw [hen] at hok
  dsimp only at hok
  rw [dispatch_object_eq] at hok
  unfold objectH at hok
  rw [hpr] at hok
  dsimp only at hok
  cases hP : objPropsF (fun a b c => getType fuel env a b c) st P with
  | error e => rw [hP] at hok; simp at hok
  | ok p =>
    obtain ⟨st1, l⟩ := p
    rw [hP] at hok
    dsimp only at hok
    by_cases hemp : (l.filterMap (fun p => p.2.map (fun t => (p.1, t)))).isEmpty
    · rw [if_pos hemp] at hok; simp at hok
    · rw [if_neg hemp] at hok
      cases hreq : requiredCheck m with
      | error e => rw [hreq] at hok; simp at hok
      | ok u =>
        rw [hreq] at hok
        simp only [Bool.false_eq_true, if_false, Except.ok.injEq, Prod.mk.injEq,
          Option.some.injEq] at hok
        refine ⟨l.filterMap (fun p => p.2.map (fun t => (p.1, t))), hok.2.symm, ?_⟩
        rw [← objPropsF_keys _ P st st1 l hP]
        exact collapse_keys_sublist l

def schemaC4w : List (String × JSON) :=
  [("type", .str "object"),
   ("properties", .obj [("a", .obj [("type", .str "string")])]),
   ("required", .arr [.str "a"])]

theorem C4_object_required_witness :
    ∃ items, MypyType.typedDict [("a", .inst "str" [])] ["a"]
        = .typedDict items (requiredOf schemaC4w) ∧
      (items.map Prod.fst).Sublist
        ((([("a", JSON.obj [("type", JSON.str "string")])].map Prod.fst)).filter
          (fun k => !isReserved k)) :=
  C4_object_required_amended 1 demoEnv demoSt demoSt schemaC4w
    [("a", .obj [("type", .str "string")])] _ rfl rfl rfl rfl

theorem C4_object_required_counterexample :
    getType 3 demoEnv demoSt (.obj [("type", .str "object"),
      ("properties", .obj [("default", .obj [("type", .str "string")]),
                           ("a", .obj [("type", .str "string")])]),
      ("required", .arr [.str "default"])]) false
    = .ok (demoSt, some (.typedDict [("a", .inst "str" [])] ["default"])) ∧
    "default" ∉ ([("a", MypyType.inst "str" [])].map Prod.fst) :=
  ⟨rfl, by decide⟩

/-- Shared: a schema holding both an enum array and a string type tag
compiles to the enum union of literals, regardless of the tag. -/
theorem getType_enum_with_string_type (fuel : Nat) (env : Env) (st : CState)
    (m : List (String × JSON)) (t : String) (vs : List JSON) (outer : Bool)
    (hty : lookupKey m "type" = some (.str t))
    (hen : lookupKey m "enum" = some (.arr vs)) :
    getType (Nat.succ fuel) env st (.obj m) outer
      = .ok (st, some (.union (vs.map (fun v => some (litOf v))))) := by
  rw [getType_succ, getTypeF_string_type _ _ _ _ _ _ hty]
  unfold getTypeAux
  rw [hen]
  rfl

/-- C5 (corrected): a schema with an enum array compiles to the Union of
one Literal per enum value in enum order, bypassing the primitive type
handler, whenever the type keyword is a single string; the same holds with
no type keyword provided none of the higher-priority structural keywords
(dollar-ref, allOf, anyOf, oneOf) is present.  When type is an array of
strings, the enum union is instead produced once per type element inside
an outer Union (see the counterexample). -/
theorem C5_enum_precedence_amended :
    (∀ (fuel : Nat) (env : Env) (st : CState) (m : List (String × JSON)) (t : String)
        (vs : List JSON) (outer : Bool),
       lookupKey m "enum" = some (.arr vs) →
       lookupKey m "type" = some (.str t) →
       getType (Nat.succ fuel) env st (.obj m) outer
         = .ok (st, some (.union (vs.map (fun v => some (litOf v)))))) ∧
    (∀ (fuel : Nat) (env : Env) (st : CState) (m : List (String × JSON))
        (vs : List JSON) (outer : Bool),
       lookupKey m "enum" = some (.arr vs) →
       lookupKey m "type" = none →
       lookupKey m "$ref" = none → lookupKey m "allOf" = none →
       lookupKey m "anyOf" = none → lookupKey m "oneOf" = none →
       getType (Nat.succ fuel) env st (.obj m) outer
         = .ok ((if idOf (.obj m) ≠ "" then pushScope st (idOf (.obj m)) else st),
                some (.union (vs.map (fun v => some (litOf v)))))) := by
  constructor
  · intro fuel env st m t vs outer hen hty
    exact getType_enum_with_string_type fuel env st m t vs outer hty hen
  · intro fuel env st m vs outer hen hty href hall hany hone
    rw [getType_succ]
    unfold getTypeF
    dsimp only
    rw [hty]
    unfold noTypeChain
    rw [href, hall, hany, hone, hen]
    rfl

theorem C5_enum_precedence_witness :
    getType 1 demoEnv demoSt
      (.obj [("type", .str "integer"), ("enum", .arr [.num 1, .num 2, .num 3])]) false
      = .ok (demoSt, some (.union
          [some (litOf (.num 1)), some (litOf (.num 2)), some (litOf (.num 3))])) :=
  C5_enum_precedence_amended.1 0 demoEnv demoSt _ "integer" [.num 1, .num 2, .num 3]
    false rfl rfl

theorem C5_enum_precedence_counterexample :
    getType 3 demoEnv demoSt
      (.obj [("type", .arr [.str "string", .str "integer"]), ("enum", .arr [.num 1])]) false
      = .ok (demoSt, some (.union [some (.union [some (litOf (.num 1))]),
                                   some (.union [some (litOf (.num 1))])])) ∧
    MypyType.union [some (.union [some (litOf (.num 1))]),
                    some (.union [some (litOf (.num 1))])]
      ≠ .union [some (litOf (.num 1))] :=
  ⟨rfl, by simp⟩

theorem dispatch_array_eq (g : CState → JSON → Bool → Except PyErr (CState × Option MypyType))
    (env : Env) (st : CState) (m : List (String × JSON)) (outer : Bool) :
    dispatchType g env st m "array" outer = arrayH g st m := rfl

/-- C6 (corrected): for an array-typed schema, items false fails with
NotImplementedError.  For an items list, a minItems or maxItems value
that is a JSON array or object raises TypeError while the guard set is
built; otherwise the schema compiles to the Tuple of the item
compilations exactly when each of minItems and maxItems is absent, null,
or Python-equal to the item count (booleans counting as 0 or 1), and any
other minItems or maxItems value fails with NotImplementedError.  The
claim is amended because a null value is accepted like an absent one and
unhashable values fail with TypeError, not the guard error. -/
theorem C6_array_tuple_amended (fuel : Nat) (env : Env) (st : CState)
    (m : List (String × JSON))
    (hty : lookupKey m "type" = some (.str "array"))
    (hen : lookupKey m "enum" = none) :
    (lookupKey m "items" = some (.bool false) →
       getType (Nat.succ fuel) env st (.obj m) false
         = .error (.notImplemented "items false is not supported")) ∧
    (∀ l, lookupKey m "items" = some (.arr l) → unhashableMinMax m = false →
       minMaxOK m l.length = true →
       getType (Nat.succ fuel) env st (.obj m) false
         = (match mapSubsF (fun a b c => getType fuel env a b c) st l with
            | .error e => .error e
            | .ok (st1, es) => .ok (st1, some (.tupleT es)))) ∧
    (∀ l, lookupKey m "items" = some (.arr l) → unhashableMinMax m = false →
       minMaxOK m l.length = false →
       getType (Nat.succ fuel) env st (.obj m) false
         = .error (.notImplemented "items list must have minItems equal maxItems")) ∧
    (∀ l, lookupKey m "items" = some (.arr l) → unhashableMinMax m = true →
       getType (Nat.succ fuel) env st (.obj m) false = .error .typeError) := by
  refine ⟨?_, ?_, ?_, ?_⟩
  · intro hit
    rw [getType_succ, getTypeF_string_type _ _ _ _ _ _ hty]
    unfold getTypeAux
    rw [hen]
    dsimp only
    rw [dispatch_array_eq]
    unfold arrayH
    rw [hit]
  · intro l hit hu hmm
    rw [getType_succ, getTypeF_string_type _ _ _ _ _ _ hty]
    unfold getTypeAux
    rw [hen]
    dsimp only
    rw [dispatch_array_eq]
    unfold arrayH
    rw [hit]
    dsimp only
    rw [if_neg (by rw [hu]; exact Bool.false_ne_true), if_pos hmm]
  · intro l hit hu hmm
    rw [getType_succ, getTypeF_string_type _ _ _ _ _ _ hty]
    unfold getTypeAux
    rw [hen]
    dsimp only
    rw [dispatch_array_eq]
    unfold arrayH
    rw [hit]
    dsimp only
    rw [if_neg (by rw [hu]; exact Bool.false_ne_true), if_neg]
    rw [hmm]
    exact Bool.false_ne_true
  · intro l hit hu
    rw [getType_succ, getTypeF_string_type _ _ _ _ _ _ hty]
    unfold getTypeAux
    rw [hen]
    dsimp only
    rw [dispatch_array_eq]
    unfold arrayH
    rw [hit]
    dsimp only
    rw [if_pos hu]

def schemaC6w : List (String × JSON) :=
  [("type", .str "array"),
   ("items", .arr [.obj [("type", .str "string")], .obj [("type", .str "integer")]]),
   ("minItems", .num 2), ("maxItems", .num 2)]

theorem C6_array_tuple_witness :
    getType 3 demoEnv demoSt (.obj schemaC6w) false
      = .ok (demoSt, some (.tupleT [some (.inst "str" []), some numberT])) := by
  rw [(C6_array_tuple_amended 2 demoEnv demoSt schemaC6w rfl rfl).2.1
    [.obj [("type", .str "string")], .obj [("type", .str "integer")]] rfl rfl rfl]
  rfl

def schemaC6cex : List (String × JSON) :=
  [("type", .str "array"), ("items", .arr [.obj [("type", .str "string")]]),
   ("minItems", .null)]

theorem C6_array_tuple_counterexample :
    lookupKey schemaC6cex "minItems" = some .null ∧
    getType 3 demoEnv demoSt (.obj schemaC6cex) false
      = .ok (demoSt, some (.tupleT [some (.inst "str" [])])) :=
  ⟨rfl, rfl⟩

/-- C7 (corrected): the OptionalTypedDict callback does not copy: applied
to a TypedDict it mutates that object in place, emptying its required-key
set (field order, names and value types preserved) and returning the same
reference; applied to a non-TypedDict value it returns the input heap and
reference unchanged. -/
theorem C7_optionalize_in_place (h : List AnalyzedObj) (r : Nat) :
    (∀ items req, h.get? r = some (.tdObj items req) →
       optionalizeCallback h r = (h.set r (.tdObj items []), r)) ∧
    (h.get? r = some .otherObj → optionalizeCallback h r = (h, r)) := by
  constructor
  · intro items req hr
    unfold optionalizeCallback
    rw [hr]
  · intro hr
    unfold optionalizeCallback
    rw [hr]

theorem C7_optionalize_witness :
    optionalizeCallback [AnalyzedObj.tdObj [("a", .inst "str" [])] ["a"],
                         AnalyzedObj.otherObj] 1
      = ([AnalyzedObj.tdObj [("a", .inst "str" [])] ["a"], AnalyzedObj.otherObj], 1) :=
  (C7_optionalize_in_place
    [AnalyzedObj.tdObj [("a", .inst "str" [])] ["a"], AnalyzedObj.otherObj] 1).2 rfl

theorem C7_optionalize_counterexample :
    optionalizeCallback [AnalyzedObj.tdObj [("a", .inst "str" [])] ["a"]] 0
      = ([AnalyzedObj.tdObj [("a", .inst "str" [])] []], 0) ∧
    [AnalyzedObj.tdObj [("a", .inst "str" [])] []].get? 0
      ≠ [AnalyzedObj.tdObj [("a", .inst "str" [])] ["a"]].get? 0 :=
  ⟨rfl, by simp⟩

/-- C8 (corrected): a self reference (ref equal to the hash mark) neither
fails nor recurses into the referenced schema (the resolution table is
arbitrary and unused): it emits the non-fatal forward-reference warning
and returns the untyped builtins dict produced by the object handler on an
empty schema, which is not a Record placeholder. -/
theorem C8_selfref_amended (fuel : Nat) (env : Env) (st : CState)
    (m : List (String × JSON)) (outer : Bool)
    (hty : lookupKey m "type" = none)
    (hid : lookupKey m "$id" = none)
    (href : lookupKey m "$ref" = some (.str "#")) :
    getType (Nat.succ fuel) env st (.obj m) outer
      = .ok (addWarn st wSelfRef, some (.inst "dict" [])) := by
  have hidz : idOf (.obj m) = "" := by
    unfold idOf
    dsimp only
    rw [hid]
  rw [getType_succ]
  unfold getTypeF
  dsimp only
  rw [hty, hidz]
  unfold noTypeChain
  rw [href]
  rfl

theorem C8_selfref_witness :
    getType 1 demoEnv demoSt (.obj [("$ref", .str "#")]) false
      = .ok (⟨[], [wSelfRef]⟩, some (.inst "dict" [])) :=
  C8_selfref_amended 0 demoEnv demoSt [("$ref", .str "#")] false rfl rfl rfl

theorem C8_selfref_counterexample :
    getType 2 demoEnv demoSt (.obj [("$ref", .str "#"), ("title", .str "Me")]) false
      = .ok (⟨[], [wSelfRef]⟩, some (.inst "dict" [])) ∧
    isRecord (.inst "dict" []) = false :=
  ⟨rfl, rfl⟩

/-- C9 (code bug): compiling a bare integer schema under draft-04 yields
the int builtin and under draft-07 the union of int and float; but with no
schema keyword at all the pipeline raises StopIteration in draft dispatch
instead of applying the draft-07 rule-set as the claim states. -/
theorem C9_integer_drafts :
    compileSchema 2 (fun _ => none)
      (.obj [("$schema", .str "http://json-schema.org/draft-04/schema#"),
             ("type", .str "integer")])
      = .ok (⟨[], []⟩, some (.inst "int" [])) ∧
    compileSchema 2 (fun _ => none)
      (.obj [("$schema", .str "http://json-schema.org/draft-07/schema#"),
             ("type", .str "integer")])
      = .ok (⟨[], []⟩, some (.union [some (.inst "int" []), some (.inst "float" [])])) ∧
    compileSchema 2 (fun _ => none) (.obj [("type", .str "integer")])
      = .error .stopIteration :=
  ⟨rfl, rfl, rfl⟩

/-- C10 (confirmed): every enum (or const) value compiles to a Literal
whose base is the builtin type named after the runtime type of the value
(bool, str, int, NoneType for null), ignoring the type keyword entirely;
in particular a null enum entry resolves the builtin named NoneType, which
is distinct from the none scalar produced by the null type handler. -/
theorem C10_literal_kind_runtime_type (fuel : Nat) (env : Env) (st : CState)
    (m : List (String × JSON)) (t : String) (vs : List JSON) (outer : Bool)
    (hty : lookupKey m "type" = some (.str t))
    (hen : lookupKey m "enum" = some (.arr vs)) :
    getType (Nat.succ fuel) env st (.obj m) outer
      = .ok (st, some (.union (vs.map (fun v =>
          some (.literal v (.inst (pyTypeName v) [])))))) ∧
    pyTypeName .null = "NoneType" ∧
    MypyType.inst "NoneType" [] ≠ MypyType.noneT ∧
    dispatchType (fun a b c => getType fuel env a b c) env st m "null" outer
      = .ok (st, some .noneT) := by
  refine ⟨?_, rfl, by simp, rfl⟩
  exact getType_enum_with_string_type fuel env st m t vs outer hty hen

theorem C10_literal_kind_witness :
    getType 1 demoEnv demoSt
      (.obj [("type", .str "null"), ("enum", .arr [.null, .bool true, .str "x", .num 5])])
      false
      = .ok (demoSt, some (.union
          [some (.literal .null (.inst "NoneType" [])),
           some (.literal (.bool true) (.inst "bool" [])),
           some (.literal (.str "x") (.inst "str" [])),
           some (.literal (.num 5) (.inst "int" []))])) :=
  (C10_literal_kind_runtime_type 0 demoEnv demoSt
    [("type", .str "null"), ("enum", .arr [.null, .bool true, .str "x", .num 5])]
    "null" [.null, .bool true, .str "x", .num 5] false rfl rfl).1
